import Mathlib

/-!
Verification of the XXTCloudControl relay hub (`main.py`).

The hub keeps four pieces of global state: `device_table` (udid to last
`app/state` body), `device_links` (udid to device connection),
`device_links_map` (connection to udid, the reverse map) and `controllers`
(the set of controller connections).  Messages are JSON texts; the router
dispatches on the `type` field, authenticating `control/*` requests with
`is_data_valid`.  All code below is a shallow embedding of `main.py`:

* JSON values are modelled by `JValue`; an object models a Python dict
  produced by `json.loads`, so its field list is keyed by strings and
  holds at most one entry per key (field lookup takes the first match).
* Python dicts keyed by udids are modelled as association lists over
  `JValue` keys compared with `pyKeyEq`, which reproduces Python's
  cross-type key equality (`True == 1`, `False == 0`).  Unhashable keys
  (arrays, objects) never enter a dict: the embedding raises where
  Python's `TypeError` would.
* Connections are opaque handles modelled as `Nat`.
* The body of the per-message `try`/`except` in `handle_connection`
  swallows any exception, so each handler returns `(state, outputs)`
  where an exception raised mid-handler keeps the mutations made before
  the raise and cancels every send that was not yet awaited (in the
  source, sends only happen at the trailing `asyncio.gather`, so an
  exception while building a send list cancels the whole batch).
* HMAC-SHA256 keyed with `passhash` is kept abstract as a parameter
  `hk : String → String` mapping the ASCII decimal string of `ts` to the
  hex digest that `hexdigest()` would return.
-/

/-- JSON values as decoded by `json.loads`: object fields are string-keyed
and, coming from a real JSON parse, hold at most one entry per key. -/
inductive JValue where
  | null : JValue
  | bool : Bool → JValue
  | int : Int → JValue
  | str : String → JValue
  | arr : List JValue → JValue
  | obj : List (String × JValue) → JValue

namespace JValue

/-- Python `==` between a decoded value and a string literal, as used by
the dispatch tests `data['type'] == 'control/devices'` etc.: only a string
can equal a string. -/
def eqStr : JValue → String → Bool
  | .str t, s => t == s
  | _, _ => false

/-- First-match lookup in an object's field list; `none` both when the key
is absent (Python `KeyError`) and when the value is not a dict (Python
`TypeError`), which the caller treats alike (the exception aborts the
handler). -/
def getField : JValue → String → Option JValue
  | .obj fs, k => go fs k
  | _, _ => none
where go : List (String × JValue) → String → Option JValue
  | [], _ => none
  | (k', v) :: rest, k => if k == k' then some v else go rest k

/-- Field update on an object's field list, as Python `d[k] = x`: the
existing key keeps its position, a new key is appended. -/
def setFields : List (String × JValue) → String → JValue → List (String × JValue)
  | [], k, x => [(k, x)]
  | (k', v') :: rest, k, x =>
      if k == k' then (k', x) :: rest else (k', v') :: setFields rest k x

/-- Python `data['udid'] = udid` on a dict; on a non-dict the source would
have raised before reaching any use of this function, so it is the
identity there. -/
def setField : JValue → String → JValue → JValue
  | .obj fs, k, x => .obj (setFields fs k x)
  | v, _, _ => v

/-- Whether a value may be a Python dict key (hashable): scalars are,
lists and dicts are not. -/
def hashable : JValue → Bool
  | .arr _ => false
  | .obj _ => false
  | _ => true

/-- Python `==` between two dict keys.  Python identifies `True` with `1`
and `False` with `0`; composite values never occur as keys (they are
unhashable), so they compare unequal here. -/
def pyKeyEq : JValue → JValue → Bool
  | .null, .null => true
  | .bool a, .bool b => a == b
  | .bool a, .int b => (if a then (1 : Int) else 0) == b
  | .int a, .bool b => a == (if b then (1 : Int) else 0)
  | .int a, .int b => a == b
  | .str a, .str b => a == b
  | _, _ => false

/-- The canonical form of a hashable key: Python hashes `True` like `1`
and `False` like `0`. -/
inductive SKey where
  | knull : SKey
  | kint : Int → SKey
  | kstr : String → SKey
deriving DecidableEq

/-- Canonicalisation of a scalar key; `none` on unhashable values. -/
def canon : JValue → Option SKey
  | .null => some .knull
  | .bool b => some (.kint (if b then 1 else 0))
  | .int n => some (.kint n)
  | .str s => some (.kstr s)
  | _ => none

end JValue

/-!  Association-list model of a Python dict keyed by arbitrary hashable
values.  Insertion preserves the position (and the stored key object) of
an existing key and appends a new key; deletion removes the entry;
`values` and `keys` enumerate in insertion order, as Python dicts do. -/

namespace PyDict

variable {κ ν : Type}

/-- Dict lookup, first match under the key-equality `beq`. -/
def find (beq : κ → κ → Bool) (k : κ) : List (κ × ν) → Option ν
  | [] => none
  | (k', v) :: rest => if beq k k' then some v else find beq k rest

/-- Dict assignment `d[k] = v`: overwrite in place keeping the original
key object, or append. -/
def insert (beq : κ → κ → Bool) (k : κ) (v : ν) : List (κ × ν) → List (κ × ν)
  | [] => [(k, v)]
  | (k', v') :: rest =>
      if beq k k' then (k', v) :: rest else (k', v') :: insert beq k v rest

/-- Dict deletion `del d[k]` of a present key (the caller checks presence,
as `del` raises `KeyError` otherwise). -/
def erase (beq : κ → κ → Bool) (k : κ) : List (κ × ν) → List (κ × ν)
  | [] => []
  | (k', v') :: rest =>
      if beq k k' then rest else (k', v') :: erase beq k rest

/-- Membership test `k in d`. -/
def contains (beq : κ → κ → Bool) (k : κ) (m : List (κ × ν)) : Bool :=
  (find beq k m).isSome

def keys : List (κ × ν) → List κ := List.map Prod.fst

def values : List (κ × ν) → List ν := List.map Prod.snd

end PyDict

/-- Equality of connection handles. -/
def connEq (a b : Nat) : Bool := a == b

/-- The hub's global mutable state: the three device dicts and the
controller set of `main.py` (the controller set is kept as a duplicate-free
list; Python set iteration order is arbitrary, newest-first here). -/
structure Hub where
  device_table : List (JValue × JValue)
  device_links : List (JValue × Nat)
  device_links_map : List (Nat × JValue)
  controllers : List Nat

/-- The state at process start: all four structures empty. -/
def initHub : Hub :=
  { device_table := [], device_links := [], device_links_map := [], controllers := [] }

/-- `controllers.add(websocket)`: a set add, idempotent. -/
def addController (st : Hub) (ws : Nat) : Hub :=
  if st.controllers.contains ws then st
  else { st with controllers := ws :: st.controllers }

/-- Python `str.lower()`, mapped over the string's character list
(structurally recursive, unlike the library's `String.toLower`, so that
concrete signatures evaluate by reduction). -/
def pyLower (s : String) : String := String.mk (s.data.map Char.toLower)

/-- The authenticator `is_data_valid` of `main.py`.  `hk` abstracts
`hmac.new(passhash, ., sha256).hexdigest()` on the ASCII decimal string of
`ts`; `now` abstracts `int(time.time())`.  Returns `none` when the Python
expression raises (`ts` or `sign` missing), `some b` when it returns `b`;
evaluation order follows the source's short-circuit `and`. -/
def is_data_valid (hk : String → String) (now : Int) (data : JValue) : Option Bool :=
  match data.getField "ts" with
  | none => none
  | some (.int t) =>
      match data.getField "sign" with
      | none => none
      | some (.str s) =>
          some (decide (now - 10 ≤ t) && decide (t ≤ now + 10) &&
            (pyLower (hk (toString t)) == pyLower s))
      | some _ => some false
  | some _ => some false

/-!  The message router of `handle_connection`.  Each branch returns the
new hub state together with the list of `(connection, message)` sends that
the `asyncio.gather` call of that branch actually awaited.  An exception
anywhere in a branch is caught by the per-message `except`, keeping the
state mutations already made and cancelling the whole pending send batch
(the coroutines collected so far are never awaited). -/

/-- `json.dumps` of the dict `device_table` as it appears inside the
`control/devices` reply: JSON object keys must be strings, so Python
stringifies scalar dict keys (`True` becomes `"true"`, `1` becomes `"1"`).
Unhashable keys never occur in a dict. -/
def dumpKey : JValue → String
  | .str s => s
  | .int n => toString n
  | .bool true => "true"
  | .bool false => "false"
  | _ => "null"

/-- The wire form of the registry snapshot sent as the body of the
`control/devices` reply. -/
def dumpsTable (t : List (JValue × JValue)) : JValue :=
  .obj (t.map (fun p => (dumpKey p.1, p.2)))

/-- The `{'type': 'app/state', 'body': ''}` poll message. -/
def appStateRequest : JValue :=
  .obj [("type", .str "app/state"), ("body", .str "")]

/-- The `{'type': 'device/disconnect', 'body': udid}` notification. -/
def disconnectMsg (udid : JValue) : JValue :=
  .obj [("type", .str "device/disconnect"), ("body", udid)]

/-- The `{'error': 'bad json', 'type': 'error', 'body': message}` reply to
a text frame that is not valid JSON. -/
def badJsonReply (raw : String) : JValue :=
  .obj [("error", .str "bad json"), ("type", .str "error"), ("body", .str raw)]

/-- The `control/devices` branch: authenticate (the preceding debug print
evaluates `data['ts']`, so a missing `ts` raises before validation, which
the catch-all turns into the same silent drop), add the sender to the
controller set, reply to the sender with the registry snapshot. -/
def control_devices (hk : String → String) (now : Int) (ws : Nat) (data : JValue)
    (st : Hub) : Hub × List (Nat × JValue) :=
  match data.getField "ts" with
  | none => (st, [])
  | some _ =>
      match is_data_valid hk now data with
      | none => (st, [])
      | some false => (st, [])
      | some true =>
          (addController st ws,
           [(ws, .obj [("type", .str "control/devices"),
                       ("body", dumpsTable st.device_table)])])

/-- The `control/refresh` branch: authenticate, add the sender to the
controller set, send an `app/state` request to every device connection in
insertion order. -/
def control_refresh (hk : String → String) (now : Int) (ws : Nat) (data : JValue)
    (st : Hub) : Hub × List (Nat × JValue) :=
  match is_data_valid hk now data with
  | none => (st, [])
  | some false => (st, [])
  | some true =>
      (addController st ws,
       (PyDict.values st.device_links).map (fun c => (c, appStateRequest)))

/-- Builds the send list of the `control/command` comprehension: for each
udid the device connection is looked up and the forwarded message built.
`none` models the `KeyError` raised while the list is being built (missing
udid, or missing `body['type']` with a nonempty device list): in that case
`asyncio.gather` is never reached and nothing at all is sent. -/
def commandSends (links : List (JValue × Nat)) (body : JValue) :
    List JValue → Option (List (Nat × JValue))
  | [] => some []
  | u :: rest =>
      match PyDict.find JValue.pyKeyEq u links with
      | none => none
      | some c =>
          match body.getField "type" with
          | none => none
          | some ty =>
              (commandSends links body rest).map
                (fun tail => (c, .obj [("type", ty),
                  ("body", (body.getField "body").getD (.str ""))]) :: tail)

/-- The `control/command` branch.  The sender is added to the controller
set before the body is examined, so that mutation survives a failed
dispatch; any lookup failure while building the send list aborts the whole
batch with nothing sent. -/
def control_command (hk : String → String) (now : Int) (ws : Nat) (data : JValue)
    (st : Hub) : Hub × List (Nat × JValue) :=
  match is_data_valid hk now data with
  | none => (st, [])
  | some false => (st, [])
  | some true =>
      match data.getField "body" with
      | none => (addController st ws, [])
      | some body =>
          match body.getField "devices" with
          | some (.arr devs) =>
              match commandSends st.device_links body devs with
              | none => (addController st ws, [])
              | some outs => (addController st ws, outs)
          | _ => (addController st ws, [])

/-- Builds the inner send list of `control/commands` for one udid: the
device connection is looked up once per command, and each command needs a
`type` field; a failure cancels the whole batch. -/
def commandsSendsFor (links : List (JValue × Nat)) (u : JValue) :
    List JValue → Option (List (Nat × JValue))
  | [] => some []
  | cmd :: rest =>
      match PyDict.find JValue.pyKeyEq u links with
      | none => none
      | some c =>
          match cmd.getField "type" with
          | none => none
          | some ty =>
              (commandsSendsFor links u rest).map
                (fun tail => (c, .obj [("type", ty),
                  ("body", (cmd.getField "body").getD (.str ""))]) :: tail)

/-- Builds the full send list of the `control/commands` nested loops. -/
def commandsSends (links : List (JValue × Nat)) (cmds : List JValue) :
    List JValue → Option (List (Nat × JValue))
  | [] => some []
  | u :: rest =>
      match commandsSendsFor links u cmds with
      | none => none
      | some here =>
          (commandsSends links cmds rest).map (fun tail => here ++ tail)

/-- The `control/commands` branch: like `control/command` but forwarding
each command of `body.commands` to each udid of `body.devices`, in device
order then command order; all-or-nothing on lookup failure. -/
def control_commands (hk : String → String) (now : Int) (ws : Nat) (data : JValue)
    (st : Hub) : Hub × List (Nat × JValue) :=
  match is_data_valid hk now data with
  | none => (st, [])
  | some false => (st, [])
  | some true =>
      match data.getField "body" with
      | none => (addController st ws, [])
      | some body =>
          match body.getField "devices", body.getField "commands" with
          | some (.arr devs), some (.arr cmds) =>
              match commandsSends st.device_links cmds devs with
              | none => (addController st ws, [])
              | some outs => (addController st ws, outs)
          | _, _ => (addController st ws, [])

/-- The udid extraction `data['body']['system']['udid']` of the
`app/state` branch, `none` when any access raises or when the extracted
udid is unhashable (in which source terms the dict assignment
`device_links[udid] = websocket` raises `TypeError` before any of the
three tables is written). -/
def appStateUdid (data : JValue) : Option JValue :=
  match data.getField "body" with
  | none => none
  | some body =>
      match (body.getField "system").bind (fun s => s.getField "udid") with
      | none => none
      | some udid => if udid.hashable then some udid else none

/-- The `app/state` registration effect: all three tables are written, in
source order `device_links`, `device_links_map`, `device_table`. -/
def registerDevice (ws : Nat) (udid body : JValue) (st : Hub) : Hub :=
  { st with
    device_links := PyDict.insert JValue.pyKeyEq udid ws st.device_links
    device_links_map := PyDict.insert connEq ws udid st.device_links_map
    device_table := PyDict.insert JValue.pyKeyEq udid body st.device_table }

/-- The fallthrough relay at the end of the message loop: if any
controller is present and the sender is a registered device (its
connection is in the reverse map), the message is sent to every controller
with a `udid` field attached. -/
def relay (ws : Nat) (data : JValue) (st : Hub) : Hub × List (Nat × JValue) :=
  if st.controllers.length > 0 then
    match PyDict.find connEq ws st.device_links_map with
    | some udid =>
        (st, st.controllers.map (fun c => (c, data.setField "udid" udid)))
    | none => (st, [])
  else (st, [])

/-- The router body for one decoded JSON message: the `if`/`elif` dispatch
of `handle_connection` on `data['type']` (whose access raises on a
non-dict or a dict without `type`, silently dropping the message), then
the fallthrough relay for everything that is not a `control/*` request. -/
def handle_message (hk : String → String) (now : Int) (ws : Nat) (data : JValue)
    (st : Hub) : Hub × List (Nat × JValue) :=
  match data.getField "type" with
  | none => (st, [])
  | some ty =>
      if ty.eqStr "control/devices" then control_devices hk now ws data st
      else if ty.eqStr "control/refresh" then control_refresh hk now ws data st
      else if ty.eqStr "control/command" then control_command hk now ws data st
      else if ty.eqStr "control/commands" then control_commands hk now ws data st
      else if ty.eqStr "app/state" then
        match appStateUdid data with
        | none => (st, [])
        | some udid =>
            relay ws data (registerDevice ws udid ((data.getField "body").getD .null) st)
      else relay ws data st

/-- One inbound frame: binary frames are ignored, text that is not valid
JSON gets the `bad json` error reply, decoded JSON goes to the router. -/
inductive Incoming where
  | binary : Nat → Incoming
  | badJson : String → Incoming
  | json : JValue → Incoming

/-- Processing of one inbound frame by the `async for` loop body. -/
def handle_incoming (hk : String → String) (now : Int) (ws : Nat) :
    Incoming → Hub → Hub × List (Nat × JValue)
  | .binary _, st => (st, [])
  | .badJson raw, st => (st, [(ws, badJsonReply raw)])
  | .json v, st => handle_message hk now ws v st

/-- The `ConnectionClosed` cleanup of `handle_connection`: a controller is
only removed from the controller set; otherwise a connection with a
reverse-map entry has its udid's three entries deleted in source order
(`device_table`, `device_links`, `device_links_map`) and the controllers
are notified.  A `del` of an absent key raises `KeyError`, which aborts
the remaining cleanup (the exception propagates out of the handler). -/
def handle_close (ws : Nat) (st : Hub) : Hub × List (Nat × JValue) :=
  if st.controllers.contains ws then
    ({ st with controllers := st.controllers.filter (fun c => c != ws) }, [])
  else
    match PyDict.find connEq ws st.device_links_map with
    | none => (st, [])
    | some udid =>
        if PyDict.contains JValue.pyKeyEq udid st.device_table then
          let st1 := { st with device_table := PyDict.erase JValue.pyKeyEq udid st.device_table }
          if PyDict.contains JValue.pyKeyEq udid st.device_links then
            let st2 := { st1 with
              device_links := PyDict.erase JValue.pyKeyEq udid st1.device_links
              device_links_map := PyDict.erase connEq ws st1.device_links_map }
            if st2.controllers.length > 0 then
              (st2, st2.controllers.map (fun c => (c, disconnectMsg udid)))
            else (st2, [])
          else (st1, [])
        else (st, [])

/-- An externally visible event: a frame arriving on a connection at some
clock reading, or a connection closing. -/
inductive Event where
  | msg : Int → Nat → Incoming → Event
  | close : Nat → Event

/-- One hub transition. -/
def step (hk : String → String) (st : Hub) : Event → Hub × List (Nat × JValue)
  | .msg now ws inp => handle_incoming hk now ws inp st
  | .close ws => handle_close ws st

/-- The hub state after a sequence of events starting from `st`. -/
def run (hk : String → String) (st : Hub) : List Event → Hub
  | [] => st
  | e :: rest => run hk (step hk st e).1 rest

/-- Modelled from the spec's words for the fallthrough relay, as the
refinement target of the router's behaviour on non-`control/*` messages:
if the sender is a currently registered device (its connection is in the
reverse map) and the controller set is non-empty, the message with a
`udid` field attached goes to every current controller; otherwise nothing
is relayed. -/
def relaySpecSends (ws : Nat) (data : JValue) (st : Hub) : List (Nat × JValue) :=
  match PyDict.find connEq ws st.device_links_map with
  | some udid =>
      if st.controllers.length > 0 then
        st.controllers.map (fun c => (c, data.setField "udid" udid))
      else []
  | none => []

/-!  Concrete values used by the closed scenario theorems below.  `hkK` is
a stand-in digest function under which the signature string is `"k"` for
every timestamp. -/

def hkK : String → String := fun _ => "k"

/-- An `app/state` body whose `system.udid` is `"a"`, carrying a version
marker to tell successive registrations apart. -/
def stateBodyA (n : Int) : JValue :=
  .obj [("system", .obj [("udid", .str "a")]), ("v", .int n)]

/-- The `app/state` message carrying `stateBodyA n`. -/
def stateMsgA (n : Int) : JValue :=
  .obj [("type", .str "app/state"), ("body", stateBodyA n)]

/-- A validly signed `control/devices` request under `hkK` at time 0. -/
def devicesMsg : JValue :=
  .obj [("type", .str "control/devices"), ("ts", .int 0), ("sign", .str "k")]

/-- A validly signed `control/command` request targeting the registered
udid `"a"` and the unknown udid `"b"`. -/
def commandMsgAB : JValue :=
  .obj [("type", .str "control/command"), ("ts", .int 0), ("sign", .str "k"),
        ("body", .obj [("devices", .arr [.str "a", .str "b"]),
                       ("type", .str "touch/down"),
                       ("body", .obj [("x", .int 1), ("y", .int 2)])])]

/-- A validly signed `control/commands` request targeting the registered
udid `"a"` and the unknown udid `"b"` with one command. -/
def commandsMsgAB : JValue :=
  .obj [("type", .str "control/commands"), ("ts", .int 0), ("sign", .str "k"),
        ("body", .obj [("devices", .arr [.str "a", .str "b"]),
                       ("commands", .arr [.obj [("type", .str "touch/up")]])])]

/-- The hub state after device connection 1 registers udid `"a"`. -/
def stDeviceA : Hub := run hkK initHub [.msg 0 1 (.json (stateMsgA 1))]

/-- The hub state after connection 1 registers udid `"a"` and connection 2
re-registers the same udid: the forward map and snapshot point to 2, the
reverse map holds both connections. -/
def stOverwriteA : Hub :=
  run hkK initHub [.msg 0 1 (.json (stateMsgA 1)), .msg 0 2 (.json (stateMsgA 2))]

/-- The hub state with device connection 1 registered as `"a"` and
connection 9 authenticated as a controller. -/
def stWithCtl : Hub :=
  run hkK initHub [.msg 0 1 (.json (stateMsgA 1)), .msg 0 9 (.json devicesMsg)]

/-- The state reached by: connection 1 registers `"a"`, connection 2
re-registers `"a"`, connection 0 authenticates as a controller, then
connection 2 closes.  Connection 1 keeps a stale reverse-map entry whose
udid is no longer in the device table. -/
def stStale : Hub :=
  run hkK initHub
    [.msg 0 1 (.json (stateMsgA 1)), .msg 0 2 (.json (stateMsgA 2)),
     .msg 0 0 (.json devicesMsg), .close 2]

/-- The structural well-formedness of a hub state: the forward device map
and the state-snapshot table always hold exactly the same udids (the
spec's Registry invariant), every dict has pairwise-distinct keys, and the
controller set has no duplicates. -/
structure GoodState (st : Hub) : Prop where
  keys_eq : PyDict.keys st.device_links = PyDict.keys st.device_table
  table_pw : (PyDict.keys st.device_table).Pairwise (fun a b => JValue.pyKeyEq a b = false)
  rev_pw : (PyDict.keys st.device_links_map).Pairwise (fun a b => connEq a b = false)
  ctrl_nodup : st.controllers.Nodup

/-!  Properties of the Python key equality. -/

namespace JValue

theorem pyKeyEq_true_iff (a b : JValue) :
    pyKeyEq a b = true ↔ (canon a).isSome ∧ canon a = canon b := by
  cases a <;> cases b <;> simp [pyKeyEq, canon]
  all_goals (rename_i x y; cases x <;> cases y <;> simp)

theorem pyKeyEq_symm (a b : JValue) : pyKeyEq a b = pyKeyEq b a := by
  apply Bool.eq_iff_iff.mpr
  rw [pyKeyEq_true_iff, pyKeyEq_true_iff]
  constructor
  · rintro ⟨h1, h2⟩; exact ⟨h2 ▸ h1, h2.symm⟩
  · rintro ⟨h1, h2⟩; exact ⟨h2 ▸ h1, h2.symm⟩

theorem pyKeyEq_euclid {a b c : JValue} (hab : pyKeyEq a b = true)
    (hac : pyKeyEq a c = true) : pyKeyEq b c = true := by
  rw [pyKeyEq_true_iff] at hab hac ⊢
  exact ⟨hab.2 ▸ hab.1, hab.2.symm.trans hac.2⟩

theorem hashable_iff_canon_isSome (a : JValue) :
    hashable a = true ↔ (canon a).isSome := by
  cases a <;> simp [hashable, canon]

theorem pyKeyEq_refl_of_hashable {a : JValue} (h : hashable a = true) :
    pyKeyEq a a = true :=
  (pyKeyEq_true_iff a a).mpr ⟨(hashable_iff_canon_isSome a).mp h, rfl⟩

end JValue

/-!  Lemmas about the dict model. -/

namespace PyDict

variable {κ ν₁ ν₂ : Type} {beq : κ → κ → Bool} {k x : κ}

theorem keys_nil : keys ([] : List (κ × ν₁)) = [] := rfl

theorem keys_cons (hd : κ × ν₁) (tl : List (κ × ν₁)) :
    keys (hd :: tl) = hd.1 :: keys tl := rfl

theorem find_cons (hd : κ × ν₁) (tl : List (κ × ν₁)) :
    find beq k (hd :: tl) = if beq k hd.1 then some hd.2 else find beq k tl := by
  obtain ⟨a, b⟩ := hd; rfl

theorem insert_cons (v : ν₁) (hd : κ × ν₁) (tl : List (κ × ν₁)) :
    insert beq k v (hd :: tl) =
      if beq k hd.1 then (hd.1, v) :: tl else hd :: insert beq k v tl := by
  obtain ⟨a, b⟩ := hd; rfl

theorem erase_cons (hd : κ × ν₁) (tl : List (κ × ν₁)) :
    erase beq k (hd :: tl) = if beq k hd.1 then tl else hd :: erase beq k tl := by
  obtain ⟨a, b⟩ := hd; rfl

theorem find_insert_self (hrefl : beq k k = true) (v : ν₁) (m : List (κ × ν₁)) :
    find beq k (insert beq k v m) = some v := by
  induction m with
  | nil => simp [insert, find, hrefl]
  | cons hd tl ih =>
      by_cases h : beq k hd.1
      · simp [insert_cons, find_cons, h]
      · simpa [insert_cons, find_cons, h] using ih

theorem contains_eq_keys_any (k : κ) (m : List (κ × ν₁)) :
    contains beq k m = (keys m).any (fun x => beq k x) := by
  induction m with
  | nil => rfl
  | cons hd tl ih =>
      by_cases h : beq k hd.1
      · simp [contains, find_cons, keys_cons, h]
      · simp only [contains, find_cons, keys_cons, h, if_neg, Bool.false_eq_true,
          not_false_iff, List.any_cons, Bool.false_or]
        exact ih

theorem find_eq_none_of_all (m : List (κ × ν₁))
    (h : ∀ x ∈ keys m, beq k x = false) : find beq k m = none := by
  induction m with
  | nil => rfl
  | cons hd tl ih =>
      have hhd : beq k hd.1 = false := h hd.1 (by rw [keys_cons]; exact List.mem_cons_self _ _)
      rw [find_cons, if_neg (by simp [hhd])]
      exact ih (fun x hx => h x (by rw [keys_cons]; exact List.mem_cons_of_mem _ hx))

theorem mem_keys_insert (v : ν₁) (m : List (κ × ν₁))
    (hx : x ∈ keys (insert beq k v m)) : x ∈ keys m ∨ x = k := by
  induction m with
  | nil =>
      simp only [insert, keys_cons, keys_nil, List.mem_singleton] at hx
      exact Or.inr hx
  | cons hd tl ih =>
      by_cases h : beq k hd.1
      · rw [insert_cons, if_pos h, keys_cons] at hx
        rw [keys_cons]
        exact Or.inl hx
      · rw [insert_cons, if_neg (by simp [h]), keys_cons] at hx
        rcases List.mem_cons.mp hx with hx | hx
        · exact Or.inl (by rw [keys_cons]; exact List.mem_cons.mpr (Or.inl hx))
        · rcases ih hx with h' | h'
          · exact Or.inl (by rw [keys_cons]; exact List.mem_cons.mpr (Or.inr h'))
          · exact Or.inr h'

theorem mem_keys_erase (m : List (κ × ν₁))
    (hx : x ∈ keys (erase beq k m)) : x ∈ keys m := by
  induction m with
  | nil => simp [erase, keys_nil] at hx
  | cons hd tl ih =>
      by_cases h : beq k hd.1
      · rw [erase_cons, if_pos h] at hx
        rw [keys_cons]
        exact List.mem_cons_of_mem _ hx
      · rw [erase_cons, if_neg (by simp [h]), keys_cons] at hx
        rw [keys_cons]
        rcases List.mem_cons.mp hx with hx | hx
        · exact List.mem_cons.mpr (Or.inl hx)
        · exact List.mem_cons_of_mem _ (ih hx)

theorem pairwise_keys_insert (hsymm : ∀ a b, beq a b = beq b a)
    (k : κ) (v : ν₁) (m : List (κ × ν₁))
    (hp : (keys m).Pairwise (fun a b => beq a b = false)) :
    (keys (insert beq k v m)).Pairwise (fun a b => beq a b = false) := by
  induction m with
  | nil => simp [insert, keys_cons, keys_nil]
  | cons hd tl ih =>
      rw [keys_cons, List.pairwise_cons] at hp
      by_cases h : beq k hd.1
      · rw [insert_cons, if_pos h, keys_cons]
        exact List.pairwise_cons.mpr hp
      · rw [insert_cons, if_neg (by simp [h]), keys_cons]
        refine List.pairwise_cons.mpr ⟨?_, ih hp.2⟩
        intro y hy
        rcases mem_keys_insert v tl hy with h' | h'
        · exact hp.1 y h'
        · rw [h', hsymm]; simpa using h

theorem pairwise_keys_erase (k : κ) (m : List (κ × ν₁))
    (hp : (keys m).Pairwise (fun a b => beq a b = false)) :
    (keys (erase beq k m)).Pairwise (fun a b => beq a b = false) := by
  induction m with
  | nil => simp [erase, keys_nil]
  | cons hd tl ih =>
      rw [keys_cons, List.pairwise_cons] at hp
      by_cases h : beq k hd.1
      · rw [erase_cons, if_pos h]
        exact hp.2
      · rw [erase_cons, if_neg (by simp [h]), keys_cons]
        refine List.pairwise_cons.mpr ⟨?_, ih hp.2⟩
        intro y hy
        exact hp.1 y (mem_keys_erase tl hy)

theorem find_erase_self (beq : κ → κ → Bool)
    (heuc : ∀ {a b c : κ}, beq a b = true → beq a c = true → beq b c = true)
    (k : κ) (m : List (κ × ν₁))
    (hp : (keys m).Pairwise (fun a b => beq a b = false)) :
    find beq k (erase beq k m) = none := by
  induction m with
  | nil => rfl
  | cons hd tl ih =>
      rw [keys_cons, List.pairwise_cons] at hp
      by_cases h : beq k hd.1
      · rw [erase_cons, if_pos h]
        apply find_eq_none_of_all
        intro y hy
        cases hby : beq k y
        · rfl
        · have : beq hd.1 y = true := heuc h hby
          have := hp.1 y hy
          simp_all
      · rw [erase_cons, if_neg (by simp [h]), find_cons, if_neg (by simp [h])]
        exact ih hp.2

theorem keys_insert_eq_of_keys_eq (m₁ : List (κ × ν₁)) (m₂ : List (κ × ν₂))
    (hkeys : keys m₁ = keys m₂) (k : κ) (v₁ : ν₁) (v₂ : ν₂) :
    keys (insert beq k v₁ m₁) = keys (insert beq k v₂ m₂) := by
  induction m₁ generalizing m₂ with
  | nil =>
      cases m₂ with
      | nil => rfl
      | cons h t => simp [keys_nil, keys_cons] at hkeys
  | cons hd tl ih =>
      cases m₂ with
      | nil => simp [keys_nil, keys_cons] at hkeys
      | cons hd₂ tl₂ =>
          rw [keys_cons, keys_cons, List.cons.injEq] at hkeys
          by_cases h : beq k hd.1
          · rw [insert_cons, if_pos h, insert_cons, if_pos (hkeys.1 ▸ h),
              keys_cons, keys_cons]
            simp only [List.cons.injEq]
            exact ⟨hkeys.1, hkeys.2⟩
          · rw [insert_cons, if_neg (by simp [h]),
              insert_cons, if_neg (by rw [← hkeys.1]; simp [h]), keys_cons, keys_cons]
            rw [hkeys.1, ih tl₂ hkeys.2]

theorem keys_erase_eq_of_keys_eq (m₁ : List (κ × ν₁)) (m₂ : List (κ × ν₂))
    (hkeys : keys m₁ = keys m₂) (k : κ) :
    keys (erase beq k m₁) = keys (erase beq k m₂) := by
  induction m₁ generalizing m₂ with
  | nil =>
      cases m₂ with
      | nil => rfl
      | cons h t => simp [keys_nil, keys_cons] at hkeys
  | cons hd tl ih =>
      cases m₂ with
      | nil => simp [keys_nil, keys_cons] at hkeys
      | cons hd₂ tl₂ =>
          rw [keys_cons, keys_cons, List.cons.injEq] at hkeys
          by_cases h : beq k hd.1
          · rw [erase_cons, if_pos h, erase_cons, if_pos (hkeys.1 ▸ h)]
            exact hkeys.2
          · rw [erase_cons, if_neg (by simp [h]),
              erase_cons, if_neg (by rw [← hkeys.1]; simp [h]), keys_cons, keys_cons]
            rw [hkeys.1, ih tl₂ hkeys.2]

theorem contains_eq_of_keys_eq (m₁ : List (κ × ν₁)) (m₂ : List (κ × ν₂))
    (hkeys : keys m₁ = keys m₂) (k : κ) :
    contains beq k m₁ = contains beq k m₂ := by
  rw [contains_eq_keys_any, contains_eq_keys_any, hkeys]

end PyDict

/-!  The global registry invariant and its preservation by every hub
transition. -/

theorem connEq_refl (a : Nat) : connEq a a = true := by simp [connEq]

theorem connEq_symm (a b : Nat) : connEq a b = connEq b a := by
  apply Bool.eq_iff_iff.mpr
  simp only [connEq, beq_iff_eq]
  exact eq_comm

theorem connEq_euclid {a b c : Nat} (hab : connEq a b = true)
    (hac : connEq a c = true) : connEq b c = true := by
  simp only [connEq, beq_iff_eq] at *
  omega

theorem goodState_init : GoodState initHub :=
  ⟨rfl, List.Pairwise.nil, List.Pairwise.nil, List.nodup_nil⟩

theorem goodState_addController {st : Hub} (h : GoodState st) (ws : Nat) :
    GoodState (addController st ws) := by
  unfold addController
  by_cases hc : st.controllers.contains ws = true
  · rw [if_pos hc]; exact h
  · rw [if_neg hc]
    refine ⟨h.keys_eq, h.table_pw, h.rev_pw, List.nodup_cons.mpr ⟨?_, h.ctrl_nodup⟩⟩
    simpa using hc

theorem goodState_registerDevice {st : Hub} (h : GoodState st)
    (ws : Nat) (udid body : JValue) : GoodState (registerDevice ws udid body st) := by
  refine ⟨?_, ?_, ?_, h.ctrl_nodup⟩
  · exact PyDict.keys_insert_eq_of_keys_eq _ _ h.keys_eq udid ws body
  · exact PyDict.pairwise_keys_insert JValue.pyKeyEq_symm udid body _ h.table_pw
  · exact PyDict.pairwise_keys_insert connEq_symm ws udid _ h.rev_pw

theorem control_devices_fst (hk : String → String) (now : Int) (ws : Nat)
    (data : JValue) (st : Hub) :
    (control_devices hk now ws data st).1 = st ∨
      (control_devices hk now ws data st).1 = addController st ws := by
  unfold control_devices
  repeat' split
  all_goals first | exact Or.inl rfl | exact Or.inr rfl

theorem control_refresh_fst (hk : String → String) (now : Int) (ws : Nat)
    (data : JValue) (st : Hub) :
    (control_refresh hk now ws data st).1 = st ∨
      (control_refresh hk now ws data st).1 = addController st ws := by
  unfold control_refresh
  repeat' split
  all_goals first | exact Or.inl rfl | exact Or.inr rfl

theorem control_command_fst (hk : String → String) (now : Int) (ws : Nat)
    (data : JValue) (st : Hub) :
    (control_command hk now ws data st).1 = st ∨
      (control_command hk now ws data st).1 = addController st ws := by
  unfold control_command
  repeat' split
  all_goals first | exact Or.inl rfl | exact Or.inr rfl

theorem control_commands_fst (hk : String → String) (now : Int) (ws : Nat)
    (data : JValue) (st : Hub) :
    (control_commands hk now ws data st).1 = st ∨
      (control_commands hk now ws data st).1 = addController st ws := by
  unfold control_commands
  repeat' split
  all_goals first | exact Or.inl rfl | exact Or.inr rfl

theorem relay_fst (ws : Nat) (data : JValue) (st : Hub) :
    (relay ws data st).1 = st := by
  unfold relay
  repeat' split
  all_goals rfl

theorem goodState_handle_message {st : Hub} (h : GoodState st)
    (hk : String → String) (now : Int) (ws : Nat) (data : JValue) :
    GoodState (handle_message hk now ws data st).1 := by
  unfold handle_message
  cases data.getField "type" with
  | none => exact h
  | some ty =>
      dsimp only
      by_cases h1 : ty.eqStr "control/devices" = true
      · rw [if_pos h1]
        rcases control_devices_fst hk now ws data st with he | he <;> rw [he]
        · exact h
        · exact goodState_addController h ws
      · rw [if_neg h1]
        by_cases h2 : ty.eqStr "control/refresh" = true
        · rw [if_pos h2]
          rcases control_refresh_fst hk now ws data st with he | he <;> rw [he]
          · exact h
          · exact goodState_addController h ws
        · rw [if_neg h2]
          by_cases h3 : ty.eqStr "control/command" = true
          · rw [if_pos h3]
            rcases control_command_fst hk now ws data st with he | he <;> rw [he]
            · exact h
            · exact goodState_addController h ws
          · rw [if_neg h3]
            by_cases h4 : ty.eqStr "control/commands" = true
            · rw [if_pos h4]
              rcases control_commands_fst hk now ws data st with he | he <;> rw [he]
              · exact h
              · exact goodState_addController h ws
            · rw [if_neg h4]
              by_cases h5 : ty.eqStr "app/state" = true
              · rw [if_pos h5]
                cases appStateUdid data with
                | none => exact h
                | some udid =>
                    dsimp only
                    rw [relay_fst]
                    exact goodState_registerDevice h ws udid _
              · rw [if_neg h5, relay_fst]
                exact h

theorem goodState_handle_close {st : Hub} (h : GoodState st) (ws : Nat) :
    GoodState (handle_close ws st).1 := by
  unfold handle_close
  by_cases hc : st.controllers.contains ws = true
  · rw [if_pos hc]
    exact ⟨h.keys_eq, h.table_pw, h.rev_pw, List.Nodup.filter _ h.ctrl_nodup⟩
  · rw [if_neg hc]
    cases PyDict.find connEq ws st.device_links_map with
    | none => exact h
    | some udid =>
        dsimp only
        by_cases ht : PyDict.contains JValue.pyKeyEq udid st.device_table = true
        · have hl : PyDict.contains JValue.pyKeyEq udid st.device_links = true := by
            rw [PyDict.contains_eq_of_keys_eq _ _ h.keys_eq]
            exact ht
          rw [if_pos ht, if_pos hl]
          have hkeys : PyDict.keys (PyDict.erase JValue.pyKeyEq udid st.device_links) =
              PyDict.keys (PyDict.erase JValue.pyKeyEq udid st.device_table) :=
            PyDict.keys_erase_eq_of_keys_eq _ _ h.keys_eq udid
          by_cases hn : st.controllers.length > 0
          · rw [if_pos hn]
            exact ⟨hkeys, PyDict.pairwise_keys_erase udid _ h.table_pw,
              PyDict.pairwise_keys_erase ws _ h.rev_pw, h.ctrl_nodup⟩
          · rw [if_neg hn]
            exact ⟨hkeys, PyDict.pairwise_keys_erase udid _ h.table_pw,
              PyDict.pairwise_keys_erase ws _ h.rev_pw, h.ctrl_nodup⟩
        · rw [if_neg ht]
          exact h

theorem goodState_step {st : Hub} (h : GoodState st) (hk : String → String)
    (e : Event) : GoodState (step hk st e).1 := by
  cases e with
  | msg now ws inp =>
      cases inp with
      | binary n => exact h
      | badJson raw => exact h
      | json v => exact goodState_handle_message h hk now ws v
  | close ws => exact goodState_handle_close h ws

theorem goodState_run {st : Hub} (h : GoodState st) (hk : String → String)
    (evs : List Event) : GoodState (run hk st evs) := by
  induction evs generalizing st with
  | nil => exact h
  | cons e rest ih => exact ih (goodState_step h hk e)

/-!  Small routing facts used by several claim proofs. -/

theorem eqStr_true_iff (v : JValue) (s : String) :
    v.eqStr s = true ↔ v = .str s := by
  cases v <;> simp [JValue.eqStr]

/-!  Claim C1: characterization of the authenticator. -/

/-- C1: the authenticator accepts a control request if and only if its
`ts` field holds an integer `t`, its `sign` field holds a string `s`,
`now - 10 ≤ t ≤ now + 10` with both boundaries inclusive, and `s` compared
case-insensitively equals the lowercase hex HMAC-SHA256 digest, keyed with
`passhash`, of the ASCII decimal string of `t` (the digest abstracted by
`hk`); the check is a pure function of its inputs.  The boundary behaviour
claimed (`t = now - 10` and `t = now + 10` accepted, `t = now - 11` and
`t = now + 11` rejected) is an instance of the inclusive inequalities. -/
theorem is_data_valid_characterization (hk : String → String) (now : Int)
    (data : JValue) :
    is_data_valid hk now data = some true ↔
      ∃ t s, data.getField "ts" = some (.int t) ∧ data.getField "sign" = some (.str s) ∧
        (now - 10 ≤ t ∧ t ≤ now + 10) ∧ pyLower s = pyLower (hk (toString t)) := by
  unfold is_data_valid
  cases hts : data.getField "ts" with
  | none => simp
  | some tv =>
      cases tv <;> simp
      case int t =>
        cases hs : data.getField "sign" with
        | none => simp
        | some sv =>
            cases sv <;> simp
            case str s => exact fun h1 h2 => eq_comm

/-!  Claim C3: the Registry invariant. -/

/-- C3: in every hub state reachable from startup, the udids holding a
device-connection entry are exactly the udids holding a state-snapshot
entry: the key sequences of `device_links` and `device_table` coincide
(list equality, stronger than the claimed set equality), because every
transition inserts or deletes both together. -/
theorem registry_keys_invariant (hk : String → String) (evs : List Event) :
    PyDict.keys (run hk initHub evs).device_links =
      PyDict.keys (run hk initHub evs).device_table :=
  (goodState_run goodState_init hk evs).keys_eq

/-!  Claim C8: behaviour on unparseable input. -/

/-- C8 counterexample: a text message that parses as JSON but not as the
expected structure (here the JSON array text `[]`) is dropped by the
catch-all exception handler with NO reply at all, contradicting the claim
that every structurally invalid text gets an `error`-typed reply. -/
theorem malformed_structure_silent_cex :
    handle_incoming hkK 0 1 (.json (.arr [])) initHub = (initHub, []) := rfl

/-- C8 (amended): a text message that is not valid JSON gets exactly one
reply, to the sender only, of type `error` carrying the offending raw
payload in its body; hub state is unchanged and the connection continues
(the loop proceeds to the next message).  JSON texts of unexpected shape
are instead dropped silently by the per-message exception handler. -/
theorem bad_json_error_reply (hk : String → String) (now : Int) (ws : Nat)
    (raw : String) (st : Hub) :
    handle_incoming hk now ws (.badJson raw) st = (st, [(ws, badJsonReply raw)]) := rfl

/-!  Claim C9: closing a controller. -/

/-- C9: when a connection in the controller set closes, it is removed from
the controller set (so it gets no future broadcasts) and nothing else
happens: all three device structures are untouched and no message is sent
to anyone. -/
theorem controller_close_only_removes (ws : Nat) (st : Hub)
    (hc : st.controllers.contains ws = true) :
    handle_close ws st =
      ({ st with controllers := st.controllers.filter (fun c => c != ws) }, []) ∧
      (handle_close ws st).1.device_table = st.device_table ∧
      (handle_close ws st).1.device_links = st.device_links ∧
      (handle_close ws st).1.device_links_map = st.device_links_map ∧
      (handle_close ws st).1.controllers.contains ws = false := by
  unfold handle_close
  rw [if_pos hc]
  refine ⟨rfl, rfl, rfl, rfl, ?_⟩
  simp

/-- Witness for C9 at a concrete state: controller 7 closes; the device
structures survive and 7 is gone from the controller set. -/
theorem controller_close_only_removes_witness :
    (handle_close 7 (Hub.mk [(.str "a", .null)] [(.str "a", 3)] [(3, .str "a")] [7])).1.device_table
        = [(.str "a", .null)] ∧
    (handle_close 7 (Hub.mk [(.str "a", .null)] [(.str "a", 3)] [(3, .str "a")] [7])).1.controllers.contains 7
        = false := by
  have h := controller_close_only_removes 7
    (Hub.mk [(.str "a", .null)] [(.str "a", 3)] [(3, .str "a")] [7]) rfl
  exact ⟨h.2.1, h.2.2.2.2⟩

/-!  Claim C10: duplicate-udid registration and the stale reverse entry. -/

/-- C10: after connection 1 registers udid `"a"` and connection 2 later
registers the same udid, the forward map and snapshot point to connection
2 while the reverse map keeps the stale entry for 1 alongside the one for
2; when connection 1 then closes (not being a controller), the close
handler deletes the forward entry and the snapshot of `"a"`, leaving the
still-live connection 2 registered under no udid in the forward map or
table (only its reverse entry survives). -/
theorem duplicate_udid_stale_reverse :
    PyDict.find JValue.pyKeyEq (.str "a") stOverwriteA.device_links = some 2 ∧
    PyDict.find JValue.pyKeyEq (.str "a") stOverwriteA.device_table = some (stateBodyA 2) ∧
    stOverwriteA.device_links_map = [(1, .str "a"), (2, .str "a")] ∧
    stOverwriteA.controllers = [] ∧
    handle_close 1 stOverwriteA =
      (Hub.mk [] [] [(2, .str "a")] [], []) :=
  ⟨rfl, rfl, rfl, rfl, rfl⟩

/-!  Claim C2: command fan-out with a missing udid. -/

/-- C2 (code evaluated at the failing input): with udid `"a"` registered
to connection 1 and `"b"` unknown, a validly signed `control/command` and
a validly signed `control/commands` naming both deliver NOTHING — not
even to `"a"`: the eager send-list construction hits the missing udid,
the per-message handler swallows the `KeyError`, and the whole batch is
cancelled; only the sender's controller registration survives. -/
theorem command_missing_udid_cancels_batch :
    PyDict.find JValue.pyKeyEq (.str "a") stDeviceA.device_links = some 1 ∧
    PyDict.find JValue.pyKeyEq (.str "b") stDeviceA.device_links = none ∧
    handle_message hkK 0 2 commandMsgAB stDeviceA =
      ({ stDeviceA with controllers := [2] }, []) ∧
    handle_message hkK 0 2 commandsMsgAB stDeviceA =
      ({ stDeviceA with controllers := [2] }, []) :=
  ⟨rfl, rfl, rfl, rfl⟩

/-!  Claim C5: the control/devices reply. -/

/-- C5: an authenticated `control/devices` request adds the sender to the
controller set and produces exactly one send — to the sender — of type
`control/devices` whose body is the wire form of the registry's
udid-to-last-state snapshot at request time, and nothing is sent to any
other connection. -/
theorem control_devices_reply (hk : String → String) (now : Int) (ws : Nat)
    (data ty : JValue) (st : Hub)
    (hty : data.getField "type" = some ty)
    (hds : ty.eqStr "control/devices" = true)
    (hvalid : is_data_valid hk now data = some true) :
    handle_message hk now ws data st =
      (addController st ws,
       [(ws, .obj [("type", .str "control/devices"),
                   ("body", dumpsTable st.device_table)])]) := by
  have hts : ∃ tv, data.getField "ts" = some tv := by
    unfold is_data_valid at hvalid
    cases h : data.getField "ts" with
    | none => rw [h] at hvalid; exact absurd hvalid (by simp)
    | some tv => exact ⟨tv, rfl⟩
  rcases hts with ⟨tv, htv⟩
  unfold handle_message control_devices
  rw [hty]
  dsimp only
  rw [if_pos hds, htv]
  dsimp only
  rw [hvalid]

/-- Witness for C5: controller connection 9 asks the hub with device `"a"`
registered; the reply goes to 9 alone and carries the snapshot. -/
theorem control_devices_reply_witness :
    handle_message hkK 0 9 devicesMsg stDeviceA =
      (addController stDeviceA 9,
       [(9, .obj [("type", .str "control/devices"),
                  ("body", dumpsTable stDeviceA.device_table)])]) :=
  control_devices_reply hkK 0 9 devicesMsg (.str "control/devices") stDeviceA rfl rfl rfl

/-!  Claim C7: silent drop on authentication failure. -/

theorem control_devices_invalid (hk : String → String) (now : Int) (ws : Nat)
    (data : JValue) (st : Hub) (hbad : is_data_valid hk now data ≠ some true) :
    control_devices hk now ws data st = (st, []) := by
  unfold control_devices
  cases data.getField "ts" with
  | none => rfl
  | some tv =>
      dsimp only
      cases hv : is_data_valid hk now data with
      | none => rfl
      | some b =>
          cases b
          · rfl
          · exact absurd hv hbad

theorem control_refresh_invalid (hk : String → String) (now : Int) (ws : Nat)
    (data : JValue) (st : Hub) (hbad : is_data_valid hk now data ≠ some true) :
    control_refresh hk now ws data st = (st, []) := by
  unfold control_refresh
  cases hv : is_data_valid hk now data with
  | none => rfl
  | some b =>
      cases b
      · rfl
      · exact absurd hv hbad

theorem control_command_invalid (hk : String → String) (now : Int) (ws : Nat)
    (data : JValue) (st : Hub) (hbad : is_data_valid hk now data ≠ some true) :
    control_command hk now ws data st = (st, []) := by
  unfold control_command
  cases hv : is_data_valid hk now data with
  | none => rfl
  | some b =>
      cases b
      · rfl
      · exact absurd hv hbad

theorem control_commands_invalid (hk : String → String) (now : Int) (ws : Nat)
    (data : JValue) (st : Hub) (hbad : is_data_valid hk now data ≠ some true) :
    control_commands hk now ws data st = (st, []) := by
  unfold control_commands
  cases hv : is_data_valid hk now data with
  | none => rfl
  | some b =>
      cases b
      · rfl
      · exact absurd hv hbad

/-- C7: a `control/*` message (any of the four control types) that fails
authentication — the validator returns false or raises — is silently
dropped: no send to any connection and a hub state identical to the one
before the message. -/
theorem control_auth_failure_silent (hk : String → String) (now : Int) (ws : Nat)
    (data ty : JValue) (st : Hub)
    (hty : data.getField "type" = some ty)
    (hctl : ty = .str "control/devices" ∨ ty = .str "control/refresh" ∨
            ty = .str "control/command" ∨ ty = .str "control/commands")
    (hbad : is_data_valid hk now data ≠ some true) :
    handle_message hk now ws data st = (st, []) := by
  unfold handle_message
  rw [hty]
  dsimp only
  rcases hctl with rfl | rfl | rfl | rfl
  · rw [if_pos (by decide)]
    exact control_devices_invalid hk now ws data st hbad
  · rw [if_neg (by decide), if_pos (by decide)]
    exact control_refresh_invalid hk now ws data st hbad
  · rw [if_neg (by decide), if_neg (by decide), if_pos (by decide)]
    exact control_command_invalid hk now ws data st hbad
  · rw [if_neg (by decide), if_neg (by decide), if_neg (by decide), if_pos (by decide)]
    exact control_commands_invalid hk now ws data st hbad

/-- Witness for C7: a `control/devices` request with a wrong signature is
dropped with no state change and no reply, even with a device present. -/
theorem control_auth_failure_silent_witness :
    handle_message hkK 0 9
      (.obj [("type", .str "control/devices"), ("ts", .int 0), ("sign", .str "wrong")])
      stDeviceA = (stDeviceA, []) :=
  control_auth_failure_silent hkK 0 9
    (.obj [("type", .str "control/devices"), ("ts", .int 0), ("sign", .str "wrong")])
    (.str "control/devices") stDeviceA rfl (Or.inl rfl) (by decide)

/-!  Claim C4: the fallthrough relay. -/

theorem relay_snd_eq_spec (ws : Nat) (data : JValue) (st : Hub) :
    (relay ws data st).2 = relaySpecSends ws data (relay ws data st).1 := by
  rw [relay_fst]
  unfold relay relaySpecSends
  by_cases h : st.controllers.length > 0
  · rw [if_pos h]
    cases PyDict.find connEq ws st.device_links_map with
    | none => rfl
    | some udid =>
        dsimp only
        rw [if_pos h]
  · rw [if_neg h]
    cases PyDict.find connEq ws st.device_links_map with
    | none => rfl
    | some udid =>
        dsimp only
        rw [if_neg h]

/-- C4: any inbound message whose type is none of the four `control/*`
types (an `app/state` message included, after its registration effect,
whenever that registration succeeds) is relayed exactly as the spec's
fallthrough rule states, against the hub state the handler has produced:
with a `udid` field attached, to every current controller, when the sender
is in the reverse device map and the controller set is non-empty — and
not at all otherwise. -/
theorem fallthrough_relay (hk : String → String) (now : Int) (ws : Nat)
    (data ty : JValue) (st : Hub)
    (hty : data.getField "type" = some ty)
    (h1 : ty.eqStr "control/devices" = false)
    (h2 : ty.eqStr "control/refresh" = false)
    (h3 : ty.eqStr "control/command" = false)
    (h4 : ty.eqStr "control/commands" = false)
    (h5 : ty.eqStr "app/state" = true → (appStateUdid data).isSome) :
    (handle_message hk now ws data st).2 =
      relaySpecSends ws data (handle_message hk now ws data st).1 := by
  unfold handle_message
  rw [hty]
  dsimp only
  rw [if_neg (by simp [h1]), if_neg (by simp [h2]), if_neg (by simp [h3]),
      if_neg (by simp [h4])]
  by_cases hap : ty.eqStr "app/state" = true
  · rw [if_pos hap]
    rcases Option.isSome_iff_exists.mp (h5 hap) with ⟨udid, hud⟩
    rw [hud]
    dsimp only
    exact relay_snd_eq_spec ws data _
  · rw [if_neg hap]
    exact relay_snd_eq_spec ws data st

/-- Witness for C4: a `screen/frame` message from registered device 1,
with controller 9 present, relays per the spec rule. -/
theorem fallthrough_relay_witness :
    (handle_message hkK 0 1 (.obj [("type", .str "screen/frame")]) stWithCtl).2 =
      relaySpecSends 1 (.obj [("type", .str "screen/frame")])
        (handle_message hkK 0 1 (.obj [("type", .str "screen/frame")]) stWithCtl).1 :=
  fallthrough_relay hkK 0 1 (.obj [("type", .str "screen/frame")])
    (.str "screen/frame") stWithCtl rfl rfl rfl rfl rfl (by decide)

/-!  Claim C6: closing a registered device. -/

/-- C6 counterexample: in the reachable state `stStale` (udid `"a"`
registered by connection 1, re-registered by connection 2, controller 0
present, then connection 2 closed), connection 1 is not a controller and
still has a Registry (reverse-map) entry; yet when it closes, nothing is
removed — its stale reverse entry survives — and controller 0 receives no
`device/disconnect` message, contradicting the claim. -/
theorem device_close_cleanup_cex :
    stStale.controllers = [0] ∧
    stStale.controllers.contains 1 = false ∧
    PyDict.find connEq 1 stStale.device_links_map = some (.str "a") ∧
    handle_close 1 stStale = (stStale, []) ∧
    PyDict.find connEq 1 (handle_close 1 stStale).1.device_links_map = some (.str "a") :=
  ⟨rfl, rfl, rfl, rfl, rfl⟩

theorem broadcast_filter_eq {l : List Nat} (hnd : l.Nodup) {c : Nat} (hc : c ∈ l)
    (m : JValue) :
    ((l.map (fun x => (x, m))).filter (fun p => p.1 == c)).map Prod.snd = [m] := by
  induction l with
  | nil => cases hc
  | cons hd tl ih =>
      rw [List.nodup_cons] at hnd
      by_cases heq : hd = c
      · subst heq
        simp only [List.map_cons, List.filter_cons]
        rw [if_pos (by simp)]
        have hnil : (tl.map (fun x => (x, m))).filter (fun p => p.1 == hd) = [] := by
          refine List.filter_eq_nil_iff.mpr ?_
          intro p hp
          rcases List.mem_map.mp hp with ⟨x, hx, rfl⟩
          simp only [beq_iff_eq]
          intro hcon
          exact hnd.1 (hcon ▸ hx)
        rw [hnil]
        rfl
      · have hc' : c ∈ tl := by
          rcases List.mem_cons.mp hc with h | h
          · exact absurd h.symm heq
          · exact h
        simp only [List.map_cons, List.filter_cons]
        rw [if_neg (by simp [heq])]
        exact ih hnd.2 hc'

/-- C6 (amended): when a connection that is not in the controller set
closes and its reverse-map udid is still present in the device table and
forward map (which normal registration guarantees; it can fail only after
the same udid was re-registered by another connection that has since
closed), all three entries are removed, the Registry no longer contains
that udid (nor the connection), and each current controller receives
exactly one `device/disconnect` message carrying that udid. -/
theorem device_close_cleanup (ws : Nat) (st : Hub) (udid b : JValue) (lc : Nat)
    (hc : st.controllers.contains ws = false)
    (hm : PyDict.find connEq ws st.device_links_map = some udid)
    (ht : PyDict.find JValue.pyKeyEq udid st.device_table = some b)
    (hl : PyDict.find JValue.pyKeyEq udid st.device_links = some lc)
    (htpw : (PyDict.keys st.device_table).Pairwise (fun a b => JValue.pyKeyEq a b = false))
    (hlpw : (PyDict.keys st.device_links).Pairwise (fun a b => JValue.pyKeyEq a b = false))
    (hrpw : (PyDict.keys st.device_links_map).Pairwise (fun a b => connEq a b = false))
    (hnd : st.controllers.Nodup) :
    handle_close ws st =
      ({ st with
          device_table := PyDict.erase JValue.pyKeyEq udid st.device_table,
          device_links := PyDict.erase JValue.pyKeyEq udid st.device_links,
          device_links_map := PyDict.erase connEq ws st.device_links_map },
        st.controllers.map (fun c => (c, disconnectMsg udid))) ∧
      PyDict.find JValue.pyKeyEq udid (handle_close ws st).1.device_table = none ∧
      PyDict.find JValue.pyKeyEq udid (handle_close ws st).1.device_links = none ∧
      PyDict.find connEq ws (handle_close ws st).1.device_links_map = none ∧
      ∀ c ∈ st.controllers,
        ((handle_close ws st).2.filter (fun p => p.1 == c)).map Prod.snd =
          [disconnectMsg udid] := by
  have hmain : handle_close ws st =
      ({ st with
          device_table := PyDict.erase JValue.pyKeyEq udid st.device_table,
          device_links := PyDict.erase JValue.pyKeyEq udid st.device_links,
          device_links_map := PyDict.erase connEq ws st.device_links_map },
        st.controllers.map (fun c => (c, disconnectMsg udid))) := by
    unfold handle_close
    rw [if_neg (by rw [hc]; exact Bool.false_ne_true), hm]
    dsimp only
    rw [if_pos (show PyDict.contains JValue.pyKeyEq udid st.device_table = true by
          rw [PyDict.contains, ht]; rfl),
        if_pos (show PyDict.contains JValue.pyKeyEq udid st.device_links = true by
          rw [PyDict.contains, hl]; rfl)]
    by_cases hn : st.controllers.length > 0
    · rw [if_pos hn]
    · rw [if_neg hn]
      have hnil : st.controllers = [] := List.length_eq_zero.mp (by omega)
      rw [hnil]
      rfl
  refine ⟨hmain, ?_, ?_, ?_, ?_⟩
  · rw [hmain]
    exact PyDict.find_erase_self JValue.pyKeyEq JValue.pyKeyEq_euclid udid _ htpw
  · rw [hmain]
    exact PyDict.find_erase_self JValue.pyKeyEq JValue.pyKeyEq_euclid udid _ hlpw
  · rw [hmain]
    exact PyDict.find_erase_self connEq connEq_euclid ws _ hrpw
  · intro c hcmem
    rw [hmain]
    exact broadcast_filter_eq hnd hcmem _

/-- Witness for C6 (amended) at a concrete state: device connection 5
(udid `"a"`) closes with controller 9 present; the snapshot entry is gone
and controller 9 receives exactly one `device/disconnect` for `"a"`. -/
theorem device_close_cleanup_witness :
    PyDict.find JValue.pyKeyEq (.str "a")
        (handle_close 5 (Hub.mk [(.str "a", .null)] [(.str "a", 5)] [(5, .str "a")] [9])).1.device_table
      = none ∧
    ((handle_close 5 (Hub.mk [(.str "a", .null)] [(.str "a", 5)] [(5, .str "a")] [9])).2.filter
        (fun p => p.1 == 9)).map Prod.snd = [disconnectMsg (.str "a")] := by
  have h := device_close_cleanup 5
    (Hub.mk [(.str "a", .null)] [(.str "a", 5)] [(5, .str "a")] [9])
    (.str "a") .null 5 rfl rfl rfl rfl
    (by simp [PyDict.keys]) (by simp [PyDict.keys]) (by simp [PyDict.keys]) (by simp)
  exact ⟨h.2.1, h.2.2.2.2 9 (by simp)⟩
